import Mathlib

/-!
Shallow embedding of the weather-narrative derivation engine of
`weather.go` (ksuarz/weather): the condition classifier
(`getWeatherDescription`), the description composer
(`getFullWeatherDescription`), the temporal framer and comparison engine
(the pure part of `getComparison`), and the narrative assembly performed
by `handleWeather`.  Go `float64` values are modelled as `ℚ`; fallible
network steps are modelled as an explicit outcome parameter.
-/

/-- `WeatherDesc` from weather.go: one weather condition. -/
structure WeatherDesc where
  id : Int
  type : String
  description : String
  icon : String
deriving DecidableEq, Repr

/-- The `Sys` sub-document of `WeatherData`. -/
structure SysData where
  country : String
  sunrise : Int
  sunset : Int
deriving DecidableEq, Repr

/-- The `Wind` sub-document of `WeatherData`. -/
structure WindData where
  speed : ℚ
deriving DecidableEq, Repr

/-- The `Main` sub-document of `WeatherData`. -/
structure MainData where
  temperature : ℚ
  humidity : ℚ
  pressure : ℚ
deriving DecidableEq, Repr

/-- `WeatherData` from weather.go: one observation for a city. -/
structure WeatherData where
  name : String
  cityId : Int
  time : Int
  weather : List WeatherDesc
  sys : SysData
  wind : WindData
  main : MainData
  mainIcon : String
  comparison : String
  fullDescription : String
deriving DecidableEq, Repr

/-- The case clauses of the `switch` in `getWeatherDescription`
(weather.go lines 100-141), in source order: each entry pairs the listed
condition codes with the phrase returned for them. -/
def weatherCases : List (List Int × String) := [
  ([200, 230], "thunderstorms with light rain"),
  ([201, 231], "thunderstorms with rain"),
  ([202, 232], "thunderstorms with heavy rain"),
  ([210], "light thunderstorms"),
  ([211], "thunderstorms"),
  ([212], "heavy thunderstorms"),
  ([221], "ragged thunderstorms"),
  ([300, 310], "light drizzle"),
  ([301, 311], "drizzling rain"),
  ([302, 312], "heavy drizzle"),
  ([313, 321], "showers"),
  ([502, 314, 521], "heavy rain"),
  ([520, 522], "light showers"),
  ([531], "ragged showers"),
  ([620], "light rain and snow"),
  ([621], "rain and snow"),
  ([622], "heavy rain and snow"),
  ([731], "sand and dust whirls"),
  ([781], "tornadoes"),
  ([800], "clear skies"),
  ([801], "a few clouds"),
  ([803], "some broken clouds"),
  ([804], "overcast skies"),
  ([900], "tornadoes"),
  ([901], "tropical storms"),
  ([902, 962], "hurricane conditions"),
  ([903], "extreme cold"),
  ([904], "extreme heat"),
  ([905], "extreme winds"),
  ([906], "extreme hail"),
  ([951], "calm weather"),
  ([952], "light breezes"),
  ([953], "gentle breezes"),
  ([954], "moderate breezes"),
  ([955], "fresh breezes"),
  ([956], "strong breezes"),
  ([958], "windy, gale-like conditions"),
  ([959], "severe gales"),
  ([960], "storms"),
  ([961], "violent storms")]

/-- All condition codes that occur in some case clause of the switch. -/
def knownCodes : List Int := weatherCases.flatMap Prod.fst

/-- `getWeatherDescription` (weather.go lines 99-143): a `switch` on the
condition id, falling through to the free-text description. -/
def getWeatherDescription (weather : WeatherDesc) : String :=
  match weatherCases.find? (fun c => c.1.contains weather.id) with
  | some c => c.2
  | none => weather.description

/-- The join logic of `getFullWeatherDescription` (weather.go lines
152-156), acting on the already-classified phrase list `descs`: one
element is returned unchanged, otherwise all but the last are joined
with ", " and " and " plus the last element is appended. -/
def composeDescs (descs : List String) : String :=
  if descs.length = 1 then
    descs.headI
  else
    String.intercalate ", " (descs.take (descs.length - 1)) ++ " and " ++ descs.getLastD ""

/-- `getFullWeatherDescription` (weather.go lines 147-157): classify each
condition, then join the phrases. -/
def getFullWeatherDescription (weather : List WeatherDesc) : String :=
  composeDescs (weather.map getWeatherDescription)

/-- Go slicing `l[:hi]`: defined when `0 ≤ hi ≤ len(l)`, a runtime panic
(modelled as `none`) otherwise. -/
def goSliceTo (l : List String) (hi : Int) : Option (List String) :=
  if 0 ≤ hi ∧ hi ≤ l.length then some (l.take hi.toNat) else none

/-- Go indexing `l[i]`: defined when `0 ≤ i < len(l)`, a runtime panic
(modelled as `none`) otherwise. -/
def goIndex (l : List String) (i : Int) : Option String :=
  if 0 ≤ i ∧ i < l.length then l[i.toNat]? else none

/-- The join logic of `getFullWeatherDescription` with Go's slice/index
bounds checks made explicit: the else branch evaluates
`descs[:len(descs)-1]` and `descs[len(descs)-1]`, each of which panics
(modelled as `none`) when out of range. -/
def composeDescsChecked (descs : List String) : Option String :=
  if descs.length = 1 then
    goIndex descs 0
  else do
    let front ← goSliceTo descs ((descs.length : Int) - 1)
    let lastDesc ← goIndex descs ((descs.length : Int) - 1)
    pure (String.intercalate ", " front ++ " and " ++ lastDesc)

/-- `getFullWeatherDescription` with the bounds checks made explicit. -/
def getFullWeatherDescriptionChecked (weather : List WeatherDesc) : Option String :=
  composeDescsChecked (weather.map getWeatherDescription)

/-- The day/night flavor text chain of `getComparison` (weather.go lines
275-293): picks the pair (today-subject, yesterday-reference) from the
hour of the day. -/
def flavorPair (hour : Int) : String × String :=
  if hour ≥ 22 ∨ hour < 5 then
    ("Tonight", "last night")
  else if hour ≥ 5 ∧ hour < 12 then
    ("Today", "yesterday")
  else if hour ≥ 12 ∧ hour < 18 then
    ("This afternoon", "yesterday")
  else
    ("This evening", "last night")

/-- The seven-way banded sentence chain of `getComparison` (weather.go
lines 298-319), applied to the already-computed difference `diff` and
the flavor pair `(today, yesterday)`. -/
def bandSentence (diff : ℚ) (today yesterday : String) : String :=
  if diff < -5 then
    today ++ " is much cooler than " ++ yesterday ++ "."
  else if diff < -2.5 then
    today ++ " is cooler than " ++ yesterday ++ "."
  else if diff < -1.0 then
    today ++ " is slightly cooler than " ++ yesterday ++ "."
  else if diff < 1.0 then
    today ++ "'s temperature is similar to " ++ yesterday ++ "."
  else if diff < 2.5 then
    today ++ " is slightly warmer than " ++ yesterday ++ "."
  else if diff < 5.0 then
    today ++ " is warmer than " ++ yesterday ++ "."
  else
    today ++ " is much warmer than " ++ yesterday ++ "."

/-- The index (0-6, coolest first) of the band that the chain of
`getComparison` selects for a difference `diff`. -/
def bandIndex (diff : ℚ) : ℕ :=
  if diff < -5 then 0
  else if diff < -2.5 then 1
  else if diff < -1.0 then 2
  else if diff < 1.0 then 3
  else if diff < 2.5 then 4
  else if diff < 5.0 then 5
  else 6

/-- The sentence rendered for each band: band 3 (the middle band) uses
the "similar to" form, every other band the "{adjective} than" form. -/
def sentenceOfBand (i : ℕ) (today yesterday : String) : String :=
  if i = 0 then today ++ " is much cooler than " ++ yesterday ++ "."
  else if i = 1 then today ++ " is cooler than " ++ yesterday ++ "."
  else if i = 2 then today ++ " is slightly cooler than " ++ yesterday ++ "."
  else if i = 3 then today ++ "'s temperature is similar to " ++ yesterday ++ "."
  else if i = 4 then today ++ " is slightly warmer than " ++ yesterday ++ "."
  else if i = 5 then today ++ " is warmer than " ++ yesterday ++ "."
  else today ++ " is much warmer than " ++ yesterday ++ "."

/-- The pure core of `getComparison` (weather.go lines 274-319) once
yesterday's observation has been fetched: the hour chain picks the
flavor pair, line 296 computes
`diff = todayTemp - yesterdayTemp + 273.15` (today's temperature arrives
in Celsius from the `units=metric` query, yesterday's in Kelvin from the
history endpoint), and the band chain renders the sentence. -/
def getComparisonCore (todayTemp yesterdayTemp : ℚ) (hour : Int) : String :=
  bandSentence (todayTemp - yesterdayTemp + 273.15) (flavorPair hour).1 (flavorPair hour).2

/-- Outcome of the historical-data fetch performed at the top of
`getComparison` (weather.go lines 243-269): the query, the body read or
the unmarshal can fail, otherwise a list of observations is obtained. -/
inductive FetchOutcome where
  | queryFailed : FetchOutcome
  | readFailed : FetchOutcome
  | unmarshalFailed : FetchOutcome
  | ok : List WeatherData → FetchOutcome
deriving DecidableEq, Repr

/-- `getComparison` (weather.go lines 233-320) with the network steps
replaced by their outcome: every failure and the empty result list
return the empty string; otherwise the first entry of the list is
compared against today's observation. -/
def getComparison (todayData : WeatherData) (outcome : FetchOutcome) (hour : Int) : String :=
  match outcome with
  | .queryFailed => ""
  | .readFailed => ""
  | .unmarshalFailed => ""
  | .ok [] => ""
  | .ok (datum :: _) => getComparisonCore todayData.main.temperature datum.main.temperature hour

/-- Go's `math.Floor` on the rational model of float64. -/
def mathFloor (q : ℚ) : ℚ := ((⌊q⌋ : ℤ) : ℚ)

/-- The narrative-assembly block of `handleWeather` (weather.go lines
219-222): starting from the first fetched observation, set the
comparison sentence (from the unrounded temperature), round the display
temperature by `math.Floor(t + 0.5)`, and set the joined description. -/
def assembleNarrative (datum : WeatherData) (outcome : FetchOutcome) (hour : Int) : WeatherData :=
  { datum with
      comparison := getComparison datum outcome hour,
      main := { datum.main with temperature := mathFloor (datum.main.temperature + 0.5) },
      fullDescription := getFullWeatherDescription datum.weather }

/-- A temperature unit tag, as in the specified comparison-engine
contract `compare(todayTemp, yesterdayTemp, todayUnit, yesterdayUnit,
phrases)`. -/
inductive TempUnit where
  | celsius : TempUnit
  | kelvin : TempUnit
deriving DecidableEq, Repr

/-- Normalization to Celsius: subtract 273.15 from a Kelvin value
(exactly once), leave a Celsius value unchanged. -/
def toCelsius (t : ℚ) : TempUnit → ℚ
  | .celsius => t
  | .kelvin => t - 273.15

/-- Modelled from the spec: the unit-tagged comparison engine of section
4.4, which normalizes both temperatures to Celsius before subtracting
and then renders the banded sentence.  Stated here to be compared with
`getComparisonCore`, the engine of the source, whose two inputs carry
fixed units (today Celsius, yesterday Kelvin). -/
def compareUnitTagged (todayTemp : ℚ) (todayUnit : TempUnit) (yesterdayTemp : ℚ)
    (yesterdayUnit : TempUnit) (subject reference : String) : String :=
  bandSentence (toCelsius todayTemp todayUnit - toCelsius yesterdayTemp yesterdayUnit)
    subject reference

/-- A concrete observation used to instantiate theorems with hypotheses. -/
def sampleDatum (t : ℚ) : WeatherData :=
  { name := "Troy"
    cityId := 1
    time := 0
    weather := [⟨800, "Clear", "clear sky", "01d"⟩]
    sys := { country := "US", sunrise := 100, sunset := 200 }
    wind := { speed := 3 }
    main := { temperature := t, humidity := 40, pressure := 1000 }
    mainIcon := ""
    comparison := ""
    fullDescription := "" }


/-! ## Helper lemmas -/

/-- The explicitly checked join agrees with the total join on every
non-empty phrase list. -/
theorem composeDescsChecked_eq_some (descs : List String) (hne : descs ≠ []) :
    composeDescsChecked descs = some (composeDescs descs) := by
  have hlast : descs.getLast? = some (descs.getLastD "") := by
    cases hq : descs.getLast? with
    | none => exact absurd (List.getLast?_eq_none_iff.mp hq) hne
    | some a => rw [List.getLastD_eq_getLast?, hq]; rfl
  rw [composeDescsChecked, composeDescs]
  by_cases h1 : descs.length = 1
  · rw [if_pos h1, if_pos h1]
    obtain ⟨x, xs, rfl⟩ := List.exists_cons_of_ne_nil hne
    simp [goIndex]
  · rw [if_neg h1, if_neg h1]
    have hlen : 1 ≤ descs.length := by
      have := List.length_pos.mpr hne
      omega
    have htn : (((descs.length : Int)) - 1).toNat = descs.length - 1 := by omega
    rw [goSliceTo, if_pos ⟨by omega, by omega⟩, goIndex, if_pos ⟨by omega, by omega⟩, htn]
    rw [← List.getLast?_eq_getElem?, hlast]
    rfl

/-- The band chain renders exactly the sentence of the selected band. -/
theorem bandSentence_eq_sentenceOfBand (diff : ℚ) (s r : String) :
    bandSentence diff s r = sentenceOfBand (bandIndex diff) s r := by
  rw [bandSentence, bandIndex]
  split_ifs <;> rfl

/-- Differences in the middle band render the "similar to" sentence. -/
theorem bandSentence_similar (diff : ℚ) (s r : String) (h1 : -1 ≤ diff) (h2 : diff < 1) :
    bandSentence diff s r = s ++ "'s temperature is similar to " ++ r ++ "." := by
  rw [bandSentence, if_neg (by linarith), if_neg (by linarith), if_neg (by linarith),
    if_pos (by linarith)]

/-- On a list with at least two elements, the join produces all but the
last joined by ", ", then " and ", then the last element. -/
theorem composeDescs_append (front : List String) (lastDesc : String) (h : front ≠ []) :
    composeDescs (front ++ [lastDesc]) =
      String.intercalate ", " front ++ " and " ++ lastDesc := by
  have hfl : front.length ≠ 0 := fun hh => h (List.length_eq_zero.mp hh)
  have hne : (front ++ [lastDesc]).length ≠ 1 := by
    simp only [List.length_append, List.length_singleton]
    omega
  rw [composeDescs, if_neg hne]
  congr 2
  · rw [List.length_append]
    simp [List.take_left]
  · exact List.getLastD_concat _ _ _

/-! ## The claims -/

/-- C1: the comparison logic normalizes both temperatures to Celsius
before subtracting, applying the Kelvin offset 273.15 exactly once
per temperature (today's value arrives in Celsius and is untouched,
yesterday's arrives in Kelvin and has 273.15 subtracted once), so the
code's comparison is the unit-tagged engine at those unit tags; every
pair of physically equal temperatures, under any unit tags, lands in the
middle band and yields the "similar to" sentence, in particular
today 20 C against yesterday 20 C and today 283.15 K against
yesterday 10 C, and at the code level today 20 (Celsius feed) against
yesterday 293.15 (Kelvin feed) and today 10 against yesterday 283.15. -/
theorem comparison_unit_normalization :
    (∀ (t y : ℚ) (hour : Int),
      getComparisonCore t y hour =
        compareUnitTagged t .celsius y .kelvin (flavorPair hour).1 (flavorPair hour).2) ∧
    (∀ (tT : ℚ) (uT : TempUnit) (tY : ℚ) (uY : TempUnit) (s r : String),
      toCelsius tT uT = toCelsius tY uY →
      compareUnitTagged tT uT tY uY s r =
        s ++ "'s temperature is similar to " ++ r ++ ".") ∧
    (∀ s r : String, compareUnitTagged 20 .celsius 20 .celsius s r =
      s ++ "'s temperature is similar to " ++ r ++ ".") ∧
    (∀ s r : String, compareUnitTagged 283.15 .kelvin 10 .celsius s r =
      s ++ "'s temperature is similar to " ++ r ++ ".") ∧
    (∀ hour : Int, getComparisonCore 20 293.15 hour =
      (flavorPair hour).1 ++ "'s temperature is similar to " ++ (flavorPair hour).2 ++ ".") ∧
    (∀ hour : Int, getComparisonCore 10 283.15 hour =
      (flavorPair hour).1 ++ "'s temperature is similar to " ++ (flavorPair hour).2 ++ ".") := by
  refine ⟨?_, ?_, ?_, ?_, ?_, ?_⟩
  · intro t y hour
    rw [getComparisonCore, compareUnitTagged, toCelsius, toCelsius]
    congr 1
    ring
  · intro tT uT tY uY s r h
    rw [compareUnitTagged, h]
    exact bandSentence_similar _ _ _ (by linarith) (by linarith)
  · intro s r
    rw [compareUnitTagged]
    exact bandSentence_similar _ _ _ (by norm_num [toCelsius]) (by norm_num [toCelsius])
  · intro s r
    rw [compareUnitTagged]
    exact bandSentence_similar _ _ _ (by norm_num [toCelsius]) (by norm_num [toCelsius])
  · intro hour
    rw [getComparisonCore, show (20 - 293.15 + 273.15 : ℚ) = 0 from by norm_num]
    exact bandSentence_similar _ _ _ (by norm_num) (by norm_num)
  · intro hour
    rw [getComparisonCore, show (10 - 283.15 + 273.15 : ℚ) = 0 from by norm_num]
    exact bandSentence_similar _ _ _ (by norm_num) (by norm_num)

/-- C2: for every difference the chain selects exactly one of the seven
left-closed/right-open bands (the band index is a function of the
difference, and equals each index exactly on the stated interval), the
rendered sentence is the band's "{subject} is {adjective} than
{reference}." form except the middle band's "similar to" form, and the
boundaries are exact: -5 falls in the [-5,-2.5) band and 1 falls in the
[1,2.5) band. -/
theorem comparison_band_selection :
    (∀ diff : ℚ,
      (bandIndex diff = 0 ↔ diff < -5) ∧
      (bandIndex diff = 1 ↔ -5 ≤ diff ∧ diff < -2.5) ∧
      (bandIndex diff = 2 ↔ -2.5 ≤ diff ∧ diff < -1) ∧
      (bandIndex diff = 3 ↔ -1 ≤ diff ∧ diff < 1) ∧
      (bandIndex diff = 4 ↔ 1 ≤ diff ∧ diff < 2.5) ∧
      (bandIndex diff = 5 ↔ 2.5 ≤ diff ∧ diff < 5) ∧
      (bandIndex diff = 6 ↔ 5 ≤ diff) ∧
      ∀ s r : String, bandSentence diff s r = sentenceOfBand (bandIndex diff) s r) ∧
    bandIndex (-5) = 1 ∧ bandIndex 1 = 4 ∧
    (∀ s r : String, bandSentence (-5) s r = s ++ " is cooler than " ++ r ++ ".") ∧
    (∀ s r : String, bandSentence 1 s r = s ++ " is slightly warmer than " ++ r ++ ".") := by
  refine ⟨fun diff => ?_, by norm_num [bandIndex], by norm_num [bandIndex],
    fun s r => by rw [bandSentence, if_neg (by norm_num), if_pos (by norm_num)],
    fun s r => by
      rw [bandSentence, if_neg (by norm_num), if_neg (by norm_num), if_neg (by norm_num),
        if_neg (by norm_num), if_pos (by norm_num)]⟩
  refine ⟨⟨fun h => ?_, fun h => by rw [bandIndex, if_pos h]⟩,
    ⟨fun h => ?_, fun h => by
      rw [bandIndex, if_neg (by linarith [h.1]), if_pos (by linarith [h.2])]⟩,
    ⟨fun h => ?_, fun h => by
      rw [bandIndex, if_neg (by linarith [h.1]), if_neg (by linarith [h.1]),
        if_pos (by linarith [h.2])]⟩,
    ⟨fun h => ?_, fun h => by
      rw [bandIndex, if_neg (by linarith [h.1]), if_neg (by linarith [h.1]),
        if_neg (by linarith [h.1]), if_pos (by linarith [h.2])]⟩,
    ⟨fun h => ?_, fun h => by
      rw [bandIndex, if_neg (by linarith [h.1]), if_neg (by linarith [h.1]),
        if_neg (by linarith [h.1]), if_neg (by linarith [h.1]), if_pos (by linarith [h.2])]⟩,
    ⟨fun h => ?_, fun h => by
      rw [bandIndex, if_neg (by linarith [h.1]), if_neg (by linarith [h.1]),
        if_neg (by linarith [h.1]), if_neg (by linarith [h.1]), if_neg (by linarith [h.1]),
        if_pos (by linarith [h.2])]⟩,
    ⟨fun h => ?_, fun h => by
      rw [bandIndex, if_neg (by linarith), if_neg (by linarith), if_neg (by linarith),
        if_neg (by linarith), if_neg (by linarith), if_neg (by linarith)]⟩,
    fun s r => bandSentence_eq_sentenceOfBand diff s r⟩
  all_goals
    rw [bandIndex] at h
    split_ifs at h with h1 h2 h3 h4 h5 h6 <;>
      first | (exact absurd h (by decide)) | linarith | (constructor <;> linarith)

/-- C3: for hours 0-23 the flavor chain realizes the four documented
buckets (hour below 5 or above 21 is "Tonight"/"last night", 5-11
"Today"/"yesterday", 12-17 "This afternoon"/"yesterday", 18-21
"This evening"/"last night"), the four bucket conditions cover 0-23 with
no overlap, and the stated boundary hours evaluate as claimed. -/
theorem temporal_frame_partition :
    (∀ hour : Int, 0 ≤ hour → hour ≤ 23 →
      ((hour < 5 ∨ hour > 21) → flavorPair hour = ("Tonight", "last night")) ∧
      (5 ≤ hour ∧ hour < 12 → flavorPair hour = ("Today", "yesterday")) ∧
      (12 ≤ hour ∧ hour < 18 → flavorPair hour = ("This afternoon", "yesterday")) ∧
      (18 ≤ hour ∧ hour ≤ 21 → flavorPair hour = ("This evening", "last night")) ∧
      ((hour < 5 ∨ hour > 21) ∨ (5 ≤ hour ∧ hour < 12) ∨ (12 ≤ hour ∧ hour < 18) ∨
        (18 ≤ hour ∧ hour ≤ 21)) ∧
      ¬((hour < 5 ∨ hour > 21) ∧ 5 ≤ hour ∧ hour < 12) ∧
      ¬((hour < 5 ∨ hour > 21) ∧ 12 ≤ hour ∧ hour < 18) ∧
      ¬((hour < 5 ∨ hour > 21) ∧ 18 ≤ hour ∧ hour ≤ 21) ∧
      ¬((5 ≤ hour ∧ hour < 12) ∧ 12 ≤ hour ∧ hour < 18) ∧
      ¬((5 ≤ hour ∧ hour < 12) ∧ 18 ≤ hour ∧ hour ≤ 21) ∧
      ¬((12 ≤ hour ∧ hour < 18) ∧ 18 ≤ hour ∧ hour ≤ 21)) ∧
    flavorPair 4 = ("Tonight", "last night") ∧
    flavorPair 22 = ("Tonight", "last night") ∧
    flavorPair 5 = ("Today", "yesterday") ∧
    flavorPair 17 = ("This afternoon", "yesterday") ∧
    flavorPair 21 = ("This evening", "last night") := by
  refine ⟨fun hour h0 h23 => ?_, rfl, rfl, rfl, rfl, rfl⟩
  refine ⟨fun hh => by rw [flavorPair, if_pos (by omega)],
    fun hh => by rw [flavorPair, if_neg (by omega), if_pos (by omega)],
    fun hh => by rw [flavorPair, if_neg (by omega), if_neg (by omega), if_pos (by omega)],
    fun hh => by rw [flavorPair, if_neg (by omega), if_neg (by omega), if_neg (by omega)],
    by omega, by omega, by omega, by omega, by omega, by omega, by omega⟩

/-- C4: every condition code listed in a clause of the table receives
that clause's phrase verbatim regardless of the carried free text, every
code outside the table falls back to the observation's own description
unchanged, and no code appears in two clauses (at most one phrase per
code). -/
theorem classify_table_lookup :
    (∀ e ∈ weatherCases, ∀ c ∈ e.1, ∀ w : WeatherDesc,
      w.id = c → getWeatherDescription w = e.2) ∧
    (∀ w : WeatherDesc, w.id ∉ knownCodes → getWeatherDescription w = w.description) ∧
    knownCodes.Nodup := by
  refine ⟨?_, ?_, by decide⟩
  · intro e he c hc w hw
    fin_cases he <;> fin_cases hc <;> (simp only [getWeatherDescription, hw]; rfl)
  · intro w hw
    have h : weatherCases.find? (fun c => c.1.contains w.id) = none := by
      rw [List.find?_eq_none]
      intro e he
      have hmem : w.id ∉ e.1 := fun hmem => hw (List.mem_flatMap.mpr ⟨e, he, hmem⟩)
      simpa using hmem
    rw [getWeatherDescription, h]

/-- C5: the join keeps the given order and produces the single element
unchanged for length one, and otherwise all but the last joined with
", " followed by " and " and the last element, so one, two and three
phrases compose to "p", "a and b" and "a, b and c"; the composed
description of a clear-sky plus overcast observation is the two
classified phrases joined by " and ". -/
theorem compose_list_join :
    (∀ p : String, composeDescs [p] = p) ∧
    (∀ a b : String, composeDescs [a, b] = a ++ " and " ++ b) ∧
    (∀ a b c : String, composeDescs [a, b, c] = a ++ ", " ++ b ++ " and " ++ c) ∧
    (∀ (front : List String) (lastDesc : String), front ≠ [] →
      composeDescs (front ++ [lastDesc]) =
        String.intercalate ", " front ++ " and " ++ lastDesc) ∧
    getFullWeatherDescription [⟨800, "Clear", "clear sky", "01d"⟩,
      ⟨804, "Clouds", "overcast clouds", "04d"⟩] = "clear skies and overcast skies" :=
  ⟨fun _ => rfl, fun _ _ => rfl, fun _ _ _ => rfl,
    fun front lastDesc h => composeDescs_append front lastDesc h, rfl⟩

/-- C6: the assembled narrative's display temperature is the input
temperature rounded half-up (add 0.5, floor): every temperature in
[n - 1/2, n + 1/2) displays as n, 15.5 displays as 16, 15.49 as 15, and
the tie 16.5 rounds up to 17 where round-half-to-even would give 16. -/
theorem narrative_rounding :
    (∀ (d : WeatherData) (out : FetchOutcome) (hour : Int) (n : ℤ),
      (n : ℚ) - 1/2 ≤ d.main.temperature → d.main.temperature < (n : ℚ) + 1/2 →
      (assembleNarrative d out hour).main.temperature = (n : ℚ)) ∧
    (∀ (out : FetchOutcome) (hour : Int),
      (assembleNarrative (sampleDatum 15.5) out hour).main.temperature = 16) ∧
    (∀ (out : FetchOutcome) (hour : Int),
      (assembleNarrative (sampleDatum 15.49) out hour).main.temperature = 15) ∧
    (∀ (out : FetchOutcome) (hour : Int),
      (assembleNarrative (sampleDatum 16.5) out hour).main.temperature = 17) ∧
    mathFloor (15.5 + 0.5) = 16 ∧ mathFloor (15.49 + 0.5) = 15 ∧
    mathFloor (16.5 + 0.5) = 17 := by
  refine ⟨?_, ?_, ?_, ?_, by norm_num [mathFloor], by norm_num [mathFloor],
    by norm_num [mathFloor]⟩
  · intro d out hour n h1 h2
    show mathFloor (d.main.temperature + 0.5) = (n : ℚ)
    rw [mathFloor]
    norm_num
    exact Int.floor_eq_iff.mpr ⟨by linarith, by linarith⟩
  · intro out hour
    show mathFloor ((sampleDatum 15.5).main.temperature + 0.5) = 16
    norm_num [sampleDatum, mathFloor]
  · intro out hour
    show mathFloor ((sampleDatum 15.49).main.temperature + 0.5) = 15
    norm_num [sampleDatum, mathFloor]
  · intro out hour
    show mathFloor ((sampleDatum 16.5).main.temperature + 0.5) = 17
    norm_num [sampleDatum, mathFloor]

/-- C7: whenever yesterday's data is unavailable (the query, the body
read or the unmarshal failed, or the historical result list is empty)
the comparison is the empty string, and the assembled narrative still
carries the rounded temperature, the joined description and the
untouched pass-through fields; a concrete failing fetch shows the
outcome. -/
theorem comparison_missing_yesterday :
    (∀ (d : WeatherData) (hour : Int) (out : FetchOutcome),
      out = .queryFailed ∨ out = .readFailed ∨ out = .unmarshalFailed ∨ out = .ok [] →
      getComparison d out hour = "" ∧
      (assembleNarrative d out hour).comparison = "" ∧
      (assembleNarrative d out hour).main.temperature =
        mathFloor (d.main.temperature + 0.5) ∧
      (assembleNarrative d out hour).fullDescription =
        getFullWeatherDescription d.weather ∧
      (assembleNarrative d out hour).name = d.name ∧
      (assembleNarrative d out hour).sys = d.sys ∧
      (assembleNarrative d out hour).wind = d.wind ∧
      (assembleNarrative d out hour).main.humidity = d.main.humidity ∧
      (assembleNarrative d out hour).main.pressure = d.main.pressure) ∧
    getComparison (sampleDatum 20) .queryFailed 12 = "" ∧
    (assembleNarrative (sampleDatum 20) (.ok []) 12).comparison = "" := by
  refine ⟨?_, rfl, rfl⟩
  intro d hour out h
  rcases h with h | h | h | h <;> subst h <;>
    exact ⟨rfl, rfl, rfl, rfl, rfl, rfl, rfl, rfl, rfl⟩

/-- C8: assembling the narrative changes only the comparison sentence,
the rounded display temperature and the joined description; the city
name, city id, timestamp, condition list, sunrise/sunset block, wind
speed, humidity, pressure and icon field all pass through unmodified. -/
theorem narrative_frame_effect :
    ∀ (d : WeatherData) (out : FetchOutcome) (hour : Int),
      (assembleNarrative d out hour).name = d.name ∧
      (assembleNarrative d out hour).cityId = d.cityId ∧
      (assembleNarrative d out hour).time = d.time ∧
      (assembleNarrative d out hour).weather = d.weather ∧
      (assembleNarrative d out hour).sys = d.sys ∧
      (assembleNarrative d out hour).wind = d.wind ∧
      (assembleNarrative d out hour).main.humidity = d.main.humidity ∧
      (assembleNarrative d out hour).main.pressure = d.main.pressure ∧
      (assembleNarrative d out hour).mainIcon = d.mainIcon ∧
      (assembleNarrative d out hour).main.temperature =
        mathFloor (d.main.temperature + 0.5) ∧
      (assembleNarrative d out hour).comparison = getComparison d out hour ∧
      (assembleNarrative d out hour).fullDescription =
        getFullWeatherDescription d.weather :=
  fun _ _ _ => ⟨rfl, rfl, rfl, rfl, rfl, rfl, rfl, rfl, rfl, rfl, rfl, rfl⟩

/-- C9: with Go's bounds checks explicit, the composer panics on the
empty list (the else branch's slice and index are out of range at
length 0) and succeeds on every non-empty list, returning exactly the
total join's string. -/
theorem compose_requires_nonempty :
    composeDescsChecked [] = none ∧
    getFullWeatherDescriptionChecked [] = none ∧
    (∀ descs : List String, descs ≠ [] →
      composeDescsChecked descs = some (composeDescs descs)) ∧
    (∀ w : List WeatherDesc, w ≠ [] →
      getFullWeatherDescriptionChecked w = some (getFullWeatherDescription w)) := by
  refine ⟨rfl, rfl, fun descs h => composeDescsChecked_eq_some descs h, fun w h => ?_⟩
  rw [getFullWeatherDescriptionChecked, getFullWeatherDescription]
  exact composeDescsChecked_eq_some _ (by simpa using h)

/-- C10: condition code 802 lies between the mapped neighbors 800, 801,
803 and 804 yet is absent from the table, so the classifier returns the
fallback text unchanged for it. -/
theorem classify_code_802_missing :
    (∀ t d i : String, getWeatherDescription ⟨802, t, d, i⟩ = d) ∧
    (802 : Int) ∉ knownCodes ∧
    (800 : Int) ∈ knownCodes ∧ (801 : Int) ∈ knownCodes ∧
    (803 : Int) ∈ knownCodes ∧ (804 : Int) ∈ knownCodes :=
  ⟨fun _ _ _ => rfl, by decide, by decide, by decide, by decide, by decide⟩
